import Mathlib

/-!
Verification of the Harit Samarth telemetry ingestion, scoring and resilient
persistence pipeline against its specification.

The repository ships the TypeScript frontend (`src/services/soilHealthService.ts`,
`src/components/SoilHealthExamples.tsx`) and extensive backend documentation
(`FINAL_STATUS_REPORT.md`, `MIGRATION_VERIFICATION.md`, the MQTT guides and the
backend setup guides).  The backend Python sources (`app.py`,
`soil_health_ml.py`, `sensor_generator.py`) are not part of the checked-in
tree, so the backend operations are modelled from the specification (each such
definition says so in its doc comment); frontend functions are translated
directly from the TypeScript.
-/

namespace HaritSamarth

/-- The seven sensor parameters, in the canonical order used everywhere in the
repository: N, P, K, CO2, Temperature, Moisture, pH. -/
inductive Param
  | N
  | P
  | K
  | CO2
  | Temperature
  | Moisture
  | pH
deriving DecidableEq, Repr

/-- Canonical parameter ordering (reading schema of §6 / `SensorReading` in
`soilHealthService.ts`). -/
def canonicalParams : List Param :=
  [Param.N, Param.P, Param.K, Param.CO2, Param.Temperature, Param.Moisture, Param.pH]

/-- `SensorReading` from `src/services/soilHealthService.ts`: seven numeric
fields.  Numbers are modelled as rationals. -/
structure SensorReading where
  N : ℚ
  P : ℚ
  K : ℚ
  CO2 : ℚ
  Temperature : ℚ
  Moisture : ℚ
  pH : ℚ
deriving DecidableEq, Repr

/-- Field access by parameter name. -/
def SensorReading.value (r : SensorReading) : Param → ℚ
  | Param.N => r.N
  | Param.P => r.P
  | Param.K => r.K
  | Param.CO2 => r.CO2
  | Param.Temperature => r.Temperature
  | Param.Moisture => r.Moisture
  | Param.pH => r.pH

/-- An optimal range: `min`/`max` band per parameter. -/
structure OptRange where
  min : ℚ
  max : ℚ
deriving DecidableEq, Repr

/-- The Optimal-Range Table, exactly as served by
`GET /api/soil-health/optimal-ranges` (documented verbatim in the repository's
API reference and in the backend setup guide's table). -/
def optimalRange : Param → OptRange
  | Param.N => ⟨15, 30⟩
  | Param.P => ⟨10, 25⟩
  | Param.K => ⟨100, 200⟩
  | Param.CO2 => ⟨400, 600⟩
  | Param.Temperature => ⟨15, 25⟩
  | Param.Moisture => ⟨40, 60⟩
  | Param.pH => ⟨mkRat 13 2, mkRat 15 2⟩  -- 6.5 and 7.5

/-- A parameter value is out of its optimal range when it is strictly below
`min` or strictly above `max`. -/
def outOfRange (p : Param) (v : ℚ) : Bool :=
  decide (v < (optimalRange p).min) || decide ((optimalRange p).max < v)

/-- `getParameterStatus` from `src/components/SoilHealthExamples.tsx`:
classifies one parameter value against its optimal range. -/
inductive ParamStatus
  | low
  | high
  | optimal
deriving DecidableEq, Repr

/-- Translated from `SoilHealthExamples.tsx` (`getParameterStatus`):
`value < range.min → low`, `value > range.max → high`, else `optimal`. -/
def getParameterStatus (p : Param) (value : ℚ) : ParamStatus :=
  if value < (optimalRange p).min then ParamStatus.low
  else if (optimalRange p).max < value then ParamStatus.high
  else ParamStatus.optimal

/-- Modelled from the spec: the backend Critical Factor Analyzer
(`soil_health_ml.py` is absent from the tree).  §4.4: for each of the seven
parameters in canonical order, the parameter is listed when its value is
strictly outside the Optimal-Range Table's `[min,max]`. -/
def criticalFactors (r : SensorReading) : List Param :=
  canonicalParams.filter (fun p => outOfRange p (r.value p))

/-- Every parameter occurs in the canonical list. -/
theorem mem_canonicalParams (p : Param) : p ∈ canonicalParams := by
  cases p <;> decide

/-- The canonical list has no duplicates. -/
theorem canonicalParams_nodup : canonicalParams.Nodup := by decide

/-- `criticalFactors` is a sublist of the canonical ordering. -/
theorem criticalFactors_sublist (r : SensorReading) :
    (criticalFactors r).Sublist canonicalParams :=
  List.filter_sublist canonicalParams

/-- Membership characterisation of `criticalFactors`. -/
theorem mem_criticalFactors (r : SensorReading) (p : Param) :
    p ∈ criticalFactors r ↔
      (r.value p < (optimalRange p).min ∨ (optimalRange p).max < r.value p) := by
  simp [criticalFactors, List.mem_filter, mem_canonicalParams, outOfRange]

/-- C3: for every reading, the critical-factors list contains a parameter iff
its value is strictly outside the optimal `[min,max]` range, contains no
duplicates, and lists parameters in the canonical order
N, P, K, CO2, Temperature, Moisture, pH (it is a sublist of that ordering). -/
theorem criticalFactors_spec (r : SensorReading) :
    (∀ p : Param, p ∈ criticalFactors r ↔
        (r.value p < (optimalRange p).min ∨ (optimalRange p).max < r.value p)) ∧
      (criticalFactors r).Nodup ∧
      (criticalFactors r).Sublist canonicalParams :=
  ⟨fun p => mem_criticalFactors r p,
   List.Nodup.sublist (criticalFactors_sublist r) canonicalParams_nodup,
   criticalFactors_sublist r⟩

/-- The concrete reading of scenario B:
`{N:8, P:22, K:180, CO2:450, Temperature:28, Moisture:72, pH:8.2}`. -/
def scenarioB : SensorReading :=
  { N := 8, P := 22, K := 180, CO2 := 450, Temperature := 28, Moisture := 72,
    pH := mkRat 41 5 }  -- pH 8.2

/-- C4: on the scenario-B reading the critical factors are exactly
N, Temperature, Moisture and pH; P, K and CO2 are excluded. -/
theorem criticalFactors_scenarioB :
    Param.N ∈ criticalFactors scenarioB ∧
      Param.Temperature ∈ criticalFactors scenarioB ∧
      Param.Moisture ∈ criticalFactors scenarioB ∧
      Param.pH ∈ criticalFactors scenarioB ∧
      Param.P ∉ criticalFactors scenarioB ∧
      Param.K ∉ criticalFactors scenarioB ∧
      Param.CO2 ∉ criticalFactors scenarioB := by
  decide

/-! ## Health scoring, anomaly detection and assembled analyses -/

/-- The five health status labels (fixed threshold table of §4.2, repeated in
the repository's API reference "Status Reference"). -/
inductive HealthStatus
  | Excellent
  | Good
  | Fair
  | Poor
  | Critical
deriving DecidableEq, Repr

/-- The fixed status threshold table: 75-100 Excellent, 60-74 Good, 45-59 Fair,
30-44 Poor, 1-29 Critical. -/
def healthStatus (i : ℤ) : HealthStatus :=
  if 75 ≤ i then HealthStatus.Excellent
  else if 60 ≤ i then HealthStatus.Good
  else if 45 ≤ i then HealthStatus.Fair
  else if 30 ≤ i then HealthStatus.Poor
  else HealthStatus.Critical

/-- Modelled from the spec: the Health Scoring Engine (`soil_health_ml.py` is
absent from the tree).  §4.2: `healthIndex = round(probability * 100)`, clamped
to `[1,100]`, with `probability` the classifier's output. -/
def healthIndexOfProb (p : ℚ) : ℤ :=
  max 1 (min 100 (round (p * 100)))

/-- Anomaly severity buckets. -/
inductive Severity
  | Low
  | Medium
  | High
deriving DecidableEq, Repr

/-- Modelled from the spec: severity bucketing of the anomaly score, §4.3:
Low on `[0, 0.33]`, Medium on `(0.33, 0.66]`, High on `(0.66, 1]`. -/
def severity (s : ℚ) : Severity :=
  if s ≤ mkRat 33 100 then Severity.Low
  else if s ≤ mkRat 66 100 then Severity.Medium
  else Severity.High

/-- Modelled from the spec: the Anomaly Detector normalises the model's raw
novelty measure to a `[0,1]` score (§4.3). -/
def anomalyScoreOfRaw (x : ℚ) : ℚ :=
  max 0 (min 1 x)

/-- The two pre-trained models, abstracted: the health classifier's
probability output, the novelty model's raw measure, and the novelty model's
own inlier/outlier decision. -/
structure Models where
  healthProb : SensorReading → ℚ
  rawNovelty : SensorReading → ℚ
  isOutlier : SensorReading → Bool

/-- An `Analysis` (§3): derived from exactly one reading. -/
structure Analysis where
  healthIndex : ℤ
  healthStatus : HealthStatus
  isAnomalous : Bool
  anomalyScore : ℚ
  criticalFactors : List Param
deriving DecidableEq, Repr

/-- Modelled from the spec: `analyze-one` assembles the Analysis from the
scoring engine, the anomaly detector and the critical factor analyzer
(backend `app.py` is absent from the tree). -/
def analyzeOne (m : Models) (r : SensorReading) : Analysis :=
  { healthIndex := healthIndexOfProb (m.healthProb r)
    healthStatus := healthStatus (healthIndexOfProb (m.healthProb r))
    isAnomalous := m.isOutlier r
    anomalyScore := anomalyScoreOfRaw (m.rawNovelty r)
    criticalFactors := criticalFactors r }

/-- Modelled from the spec: `batch-analyze` runs `analyze-one` over the input
list (backend `app.py` is absent from the tree; `batchAnalyze` in
`soilHealthService.ts` posts the ordered list to it). -/
def batchAnalyze (m : Models) (rs : List SensorReading) : List Analysis :=
  rs.map (analyzeOne m)

/-- The status table as individual interval characterisations. -/
theorem healthStatus_table (i : ℤ) (h1 : 1 ≤ i) (h100 : i ≤ 100) :
    (healthStatus i = HealthStatus.Excellent ↔ (75 ≤ i ∧ i ≤ 100)) ∧
      (healthStatus i = HealthStatus.Good ↔ (60 ≤ i ∧ i ≤ 74)) ∧
      (healthStatus i = HealthStatus.Fair ↔ (45 ≤ i ∧ i ≤ 59)) ∧
      (healthStatus i = HealthStatus.Poor ↔ (30 ≤ i ∧ i ≤ 44)) ∧
      (healthStatus i = HealthStatus.Critical ↔ (1 ≤ i ∧ i ≤ 29)) := by
  unfold healthStatus
  split_ifs <;> simp_all <;> omega

/-- C2: every computed health index lies in `[1,100]`, the stored status is
wholly determined by the index via `healthStatus`, and `healthStatus` realises
the fixed table (75-100 Excellent, 60-74 Good, 45-59 Fair, 30-44 Poor,
1-29 Critical) on the whole `1..100` range. -/
theorem analyze_healthIndex_bounds_status (m : Models) (r : SensorReading) :
    1 ≤ (analyzeOne m r).healthIndex ∧
      (analyzeOne m r).healthIndex ≤ 100 ∧
      (analyzeOne m r).healthStatus = healthStatus (analyzeOne m r).healthIndex ∧
      (∀ i : ℤ, 1 ≤ i → i ≤ 100 →
        ((healthStatus i = HealthStatus.Excellent ↔ (75 ≤ i ∧ i ≤ 100)) ∧
          (healthStatus i = HealthStatus.Good ↔ (60 ≤ i ∧ i ≤ 74)) ∧
          (healthStatus i = HealthStatus.Fair ↔ (45 ≤ i ∧ i ≤ 59)) ∧
          (healthStatus i = HealthStatus.Poor ↔ (30 ≤ i ∧ i ≤ 44)) ∧
          (healthStatus i = HealthStatus.Critical ↔ (1 ≤ i ∧ i ≤ 29)))) := by
  refine ⟨le_max_left _ _, ?_, rfl, fun i h1 h100 => healthStatus_table i h1 h100⟩
  exact max_le (by norm_num) (min_le_left _ _)

/-- Closed witness for C2 at a concrete model and reading. -/
def constModels : Models :=
  { healthProb := fun _ => mkRat 4 5
    rawNovelty := fun _ => mkRat 3 20
    isOutlier := fun _ => false }

/-- The concrete reading of scenario A:
`{N:22, P:18, K:150, CO2:500, Temperature:22, Moisture:55, pH:7.2}`. -/
def scenarioA : SensorReading :=
  { N := 22, P := 18, K := 150, CO2 := 500, Temperature := 22, Moisture := 55,
    pH := mkRat 36 5 }  -- pH 7.2

/-- Witness for C2: the bounds and table instantiated at a concrete model,
reading and index. -/
theorem analyze_healthIndex_bounds_status_witness :
    1 ≤ (analyzeOne constModels scenarioA).healthIndex ∧
      (analyzeOne constModels scenarioA).healthIndex ≤ 100 ∧
      (healthStatus 80 = HealthStatus.Excellent ↔ (75 ≤ (80 : ℤ) ∧ (80 : ℤ) ≤ 100)) := by
  have h := analyze_healthIndex_bounds_status constModels scenarioA
  exact ⟨h.1, h.2.1, (h.2.2.2 80 (by decide) (by decide)).1⟩

/-- C9: every computed anomaly score lies in `[0,1]`, and on that interval the
severity function realises the buckets Low `[0,0.33]`, Medium `(0.33,0.66]`,
High `(0.66,1]` (being a function, it assigns exactly one bucket to each
score). -/
theorem analyze_anomalyScore_bounds_severity (m : Models) (r : SensorReading) :
    0 ≤ (analyzeOne m r).anomalyScore ∧
      (analyzeOne m r).anomalyScore ≤ 1 ∧
      (∀ s : ℚ, 0 ≤ s → s ≤ 1 →
        ((severity s = Severity.Low ↔ (0 ≤ s ∧ s ≤ mkRat 33 100)) ∧
          (severity s = Severity.Medium ↔ (mkRat 33 100 < s ∧ s ≤ mkRat 66 100)) ∧
          (severity s = Severity.High ↔ (mkRat 66 100 < s ∧ s ≤ 1)))) := by
  refine ⟨le_max_left _ _, max_le (by norm_num) (min_le_left _ _), fun s hs0 hs1 => ?_⟩
  have h36 : mkRat 33 100 ≤ mkRat 66 100 := by decide
  have h03 : (0 : ℚ) ≤ mkRat 33 100 := by decide
  have h61 : mkRat 66 100 ≤ 1 := by decide
  unfold severity
  split_ifs with h1 h2 <;> simp_all <;> (repeat' constructor) <;> intros <;> linarith

/-- Witness for C9: the bounds and buckets instantiated at a concrete model,
reading and score. -/
theorem analyze_anomalyScore_bounds_severity_witness :
    0 ≤ (analyzeOne constModels scenarioA).anomalyScore ∧
      (analyzeOne constModels scenarioA).anomalyScore ≤ 1 ∧
      (severity (mkRat 3 20) = Severity.Low ↔
        (0 ≤ mkRat 3 20 ∧ mkRat 3 20 ≤ mkRat 33 100)) := by
  have h := analyze_anomalyScore_bounds_severity constModels scenarioA
  exact ⟨h.1, h.2.1, (h.2.2 (mkRat 3 20) (by decide) (by decide)).1⟩

/-- C6: batch analysis returns exactly one analysis per input reading, in input
order, and the i-th result is what `analyzeOne` produces on the i-th reading
independently. -/
theorem batchAnalyze_spec (m : Models) (rs : List SensorReading) :
    (batchAnalyze m rs).length = rs.length ∧
      ∀ i : ℕ, (batchAnalyze m rs)[i]? = (rs[i]?).map (analyzeOne m) := by
  refine ⟨by simp [batchAnalyze], fun i => ?_⟩
  simp [batchAnalyze]

/-! ## Frontend status colors (`getHealthStatusColor`, soilHealthService.ts) -/

/-- Translated from `soilHealthService.ts` (`getHealthStatusColor`): the color
band for a numeric health index. -/
def getHealthStatusColor (index : ℚ) : String :=
  if index ≥ 75 then "#10b981"
  else if index ≥ 60 then "#f59e0b"
  else if index ≥ 45 then "#f97316"
  else if index ≥ 30 then "#ef4444"
  else "#991b1b"

/-- The color each backend status band is displayed with. -/
def colorOfStatus : HealthStatus → String
  | HealthStatus.Excellent => "#10b981"
  | HealthStatus.Good => "#f59e0b"
  | HealthStatus.Fair => "#f97316"
  | HealthStatus.Poor => "#ef4444"
  | HealthStatus.Critical => "#991b1b"

/-- C10: `getHealthStatusColor` is total with the exact bands of the status
table, and on every integer index in `1..100` the displayed color is the color
of the backend status band. -/
theorem getHealthStatusColor_bands :
    (∀ i : ℚ,
      (getHealthStatusColor i = "#10b981" ↔ 75 ≤ i) ∧
        (getHealthStatusColor i = "#f59e0b" ↔ (60 ≤ i ∧ i < 75)) ∧
        (getHealthStatusColor i = "#f97316" ↔ (45 ≤ i ∧ i < 60)) ∧
        (getHealthStatusColor i = "#ef4444" ↔ (30 ≤ i ∧ i < 45)) ∧
        (getHealthStatusColor i = "#991b1b" ↔ i < 30)) ∧
      (∀ i : ℤ, 1 ≤ i → i ≤ 100 →
        getHealthStatusColor (i : ℚ) = colorOfStatus (healthStatus i)) := by
  constructor
  · intro i
    unfold getHealthStatusColor
    split_ifs <;> simp_all <;> (repeat' constructor) <;> intros <;> linarith
  · intro i _ _
    by_cases h75 : (75 : ℤ) ≤ i
    · have q75 : (75 : ℚ) ≤ (i : ℚ) := by exact_mod_cast h75
      simp [getHealthStatusColor, healthStatus, colorOfStatus, h75, q75]
    · have q75 : ¬(75 : ℚ) ≤ (i : ℚ) := by exact_mod_cast h75
      by_cases h60 : (60 : ℤ) ≤ i
      · have q60 : (60 : ℚ) ≤ (i : ℚ) := by exact_mod_cast h60
        simp [getHealthStatusColor, healthStatus, colorOfStatus, h75, q75, h60, q60]
      · have q60 : ¬(60 : ℚ) ≤ (i : ℚ) := by exact_mod_cast h60
        by_cases h45 : (45 : ℤ) ≤ i
        · have q45 : (45 : ℚ) ≤ (i : ℚ) := by exact_mod_cast h45
          simp [getHealthStatusColor, healthStatus, colorOfStatus, h75, q75, h60, q60, h45, q45]
        · have q45 : ¬(45 : ℚ) ≤ (i : ℚ) := by exact_mod_cast h45
          by_cases h30 : (30 : ℤ) ≤ i
          · have q30 : (30 : ℚ) ≤ (i : ℚ) := by exact_mod_cast h30
            simp [getHealthStatusColor, healthStatus, colorOfStatus, h75, q75, h60, q60, h45,
              q45, h30, q30]
          · have q30 : ¬(30 : ℚ) ≤ (i : ℚ) := by exact_mod_cast h30
            simp [getHealthStatusColor, healthStatus, colorOfStatus, h75, q75, h60, q60, h45,
              q45, h30, q30]

/-- Witness for C10: the band characterisation and band/status agreement,
instantiated at index 80. -/
theorem getHealthStatusColor_bands_witness :
    (getHealthStatusColor 80 = "#10b981" ↔ 75 ≤ (80 : ℚ)) ∧
      getHealthStatusColor ((80 : ℤ) : ℚ) = colorOfStatus (healthStatus 80) := by
  have h := getHealthStatusColor_bands
  exact ⟨(h.1 80).1, h.2 80 (by decide) (by decide)⟩

/-! ## Dual-write persistence -/

/-- How the dual write resolved (§3): `Primary` (both stores written),
`Fallback` (only the CSV backup written), `BothFailed`. -/
inductive StorageMode
  | Primary
  | Fallback
  | BothFailed
deriving DecidableEq, Repr

/-- A `PersistedRecord` (§3): reading + analysis + storage mode + a
server-assigned sequence id (the MySQL `id INT AUTO_INCREMENT PRIMARY KEY`
documented in `FINAL_STATUS_REPORT.md`) and timestamp. -/
structure PersistedRecord where
  seq : ℕ
  timestamp : ℤ
  reading : SensorReading
  analysis : Analysis
  mode : StorageMode
deriving DecidableEq, Repr

/-- The two stores: the primary record table and the secondary append-only
log, plus the next auto-increment sequence id. -/
structure Stores where
  nextSeq : ℕ
  primary : List PersistedRecord
  secondary : List PersistedRecord
deriving DecidableEq, Repr

/-- Fresh store state (MySQL auto-increment starts at 1). -/
def Stores.empty : Stores :=
  { nextSeq := 1, primary := [], secondary := [] }

/-- Modelled from the spec: the Persistence Coordinator's `persist`
(backend `app.py` with `save_to_csv`/`save_to_mysql` is absent from the tree).
§4.5: always attempts the secondary append (not skipped when the primary
fails), then the primary write; `primaryOk`/`secondaryOk` inject the two write
outcomes; the resolution is Primary / Fallback / BothFailed, and the in-memory
record is always returned (storage failure is never an exception). -/
def persist (r : SensorReading) (a : Analysis) (ts : ℤ) (st : Stores)
    (primaryOk secondaryOk : Bool) : PersistedRecord × Stores :=
  let mode :=
    if primaryOk then StorageMode.Primary
    else if secondaryOk then StorageMode.Fallback
    else StorageMode.BothFailed
  let record : PersistedRecord :=
    { seq := st.nextSeq, timestamp := ts, reading := r, analysis := a, mode := mode }
  let afterSecondary :=
    if secondaryOk then { st with secondary := st.secondary ++ [record] } else st
  let afterPrimary :=
    if primaryOk then
      { afterSecondary with primary := afterSecondary.primary ++ [record] }
    else afterSecondary
  (record, { afterPrimary with nextSeq := st.nextSeq + 1 })

/-- C1: `persist` is a total function of the injected storage outcomes (a
storage failure is never an exception): the in-memory record is always
returned to the caller; when the primary write fails and the secondary
succeeds the record is tagged `Fallback` and the secondary store contains it;
when both writes fail the record is tagged `BothFailed` and still returned. -/
theorem persist_storage_failure_modes (r : SensorReading) (a : Analysis) (ts : ℤ)
    (st : Stores) :
    (∀ primaryOk secondaryOk : Bool,
      (persist r a ts st primaryOk secondaryOk).1.reading = r ∧
        (persist r a ts st primaryOk secondaryOk).1.analysis = a) ∧
      (persist r a ts st false true).1.mode = StorageMode.Fallback ∧
      (persist r a ts st false true).1 ∈ (persist r a ts st false true).2.secondary ∧
      (persist r a ts st false false).1.mode = StorageMode.BothFailed ∧
      (persist r a ts st false false).2.primary = st.primary ∧
      (persist r a ts st false false).2.secondary = st.secondary := by
  refine ⟨fun pOk sOk => ⟨rfl, rfl⟩, rfl, ?_, rfl, rfl, rfl⟩
  simp [persist]

/-! ## Query service -/

/-- "Most recent first" ordering on persisted records by timestamp, as used by
the documented queries. -/
def tsDescOrder (a b : PersistedRecord) : Prop :=
  b.timestamp ≤ a.timestamp

instance : DecidableRel tsDescOrder := fun a b =>
  inferInstanceAs (Decidable (b.timestamp ≤ a.timestamp))

instance : IsTotal PersistedRecord tsDescOrder :=
  ⟨fun a b => le_total b.timestamp a.timestamp⟩

instance : IsTrans PersistedRecord tsDescOrder :=
  ⟨fun _ _ _ hab hbc => le_trans hbc hab⟩

/-- Modelled from the spec: the Query Service's `history(limit)` (backend
`app.py` is absent from the tree).  The repository documents the query
verbatim (`FINAL_STATUS_REPORT.md`):
`SELECT * FROM sensor_readings ORDER BY timestamp DESC LIMIT ?` — the
primary-store records sorted most-recent-timestamp-first, truncated to
`limit`. -/
def history (st : Stores) (limit : ℕ) : List PersistedRecord :=
  (st.primary.insertionSort tsDescOrder).take limit

/-- Modelled from the spec: `latest()` (backend `app.py` is absent from the
tree).  Documented query: `SELECT * FROM sensor_readings ORDER BY timestamp
DESC LIMIT 1`. -/
def latest (st : Stores) : Option PersistedRecord :=
  (history st 1).head?

/-- A fixed analysis used for the concrete store scenarios. -/
def demoAnalysis : Analysis :=
  { healthIndex := 80
    healthStatus := HealthStatus.Excellent
    isAnomalous := false
    anomalyScore := 0
    criticalFactors := [] }

/-- A store holding two records persisted in order: sequence id 1 with capture
timestamp 10, then sequence id 2 with capture timestamp 5 (captures may arrive
out of order). -/
def demoStores : Stores :=
  (persist scenarioA demoAnalysis 5
    (persist scenarioA demoAnalysis 10 Stores.empty true true).2 true true).2

/-- C5 counterexample: `history`/`latest` follow the documented
`ORDER BY timestamp DESC`, not the sequence id.  In `demoStores` the
most-recently-persisted record has sequence id 2 (timestamp 5), yet `history`
returns sequence ids `[1, 2]` (timestamp order), not `[2, 1]` (sequence
order), and `latest` returns the record with sequence id 1. -/
theorem history_not_ordered_by_seq :
    (history demoStores 2).map PersistedRecord.seq = [1, 2] ∧
      (history demoStores 2).map PersistedRecord.seq ≠ [2, 1] ∧
      Option.map PersistedRecord.seq (latest demoStores) = some 1 := by
  decide

/-- C5 amended: every persisted record carries a monotonically increasing
sequence id assigned at the moment of persistence, but `history(limit)` (and
so `latest`) orders results by the capture timestamp, most recent first, not
by the sequence id. -/
theorem persist_seq_and_history_timestamp_order (r : SensorReading) (a : Analysis)
    (ts : ℤ) (st st2 : Stores) (primaryOk secondaryOk : Bool) (limit : ℕ) :
    (persist r a ts st primaryOk secondaryOk).1.seq = st.nextSeq ∧
      (persist r a ts st primaryOk secondaryOk).2.nextSeq = st.nextSeq + 1 ∧
      (history st2 limit).Sorted tsDescOrder ∧
      (history st2 limit).length ≤ limit := by
  refine ⟨rfl, rfl, ?_, ?_⟩
  · exact List.Pairwise.sublist (List.take_sublist _ _)
      (List.sorted_insertionSort tsDescOrder st2.primary)
  · simpa [history] using List.length_take_le limit _

/-! ## Statistics -/

/-- The aggregate served by `GET /api/soil-health/stats` (documented response:
`total_readings`, `average_health_index`, `anomaly_count`,
`anomaly_percentage`). -/
structure StatsResult where
  count : ℕ
  averageHealthIndex : ℚ
  anomalyCount : ℕ
  anomalyPercentage : ℚ
deriving DecidableEq, Repr

/-- Modelled from the spec: the `stats()` aggregation (backend `app.py` is
absent from the tree).  Count, arithmetic mean of stored health indices,
anomaly count and `100*m/k` anomaly percentage; zero aggregate over zero
records (§7: never divides by zero). -/
def stats (records : List PersistedRecord) : StatsResult :=
  let k := records.length
  let m := (records.filter (fun pr => pr.analysis.isAnomalous)).length
  let total : ℤ := (records.map (fun pr => pr.analysis.healthIndex)).sum
  { count := k
    averageHealthIndex := if k = 0 then 0 else mkRat total k
    anomalyCount := m
    anomalyPercentage := if k = 0 then 0 else mkRat (100 * m) k }

/-- C8: over a nonempty record set of `k` records of which `m` are anomalous,
`stats` reports `anomalyPercentage = 100*m/k` and `averageHealthIndex` equal
to the arithmetic mean of the stored health indices. -/
theorem stats_spec (records : List PersistedRecord) (h : records ≠ []) :
    (stats records).count = records.length ∧
      (stats records).anomalyCount =
        (records.filter (fun pr => pr.analysis.isAnomalous)).length ∧
      (stats records).anomalyPercentage =
        100 * ((records.filter (fun pr => pr.analysis.isAnomalous)).length : ℚ) /
          (records.length : ℚ) ∧
      (stats records).averageHealthIndex =
        ((records.map (fun pr => (pr.analysis.healthIndex : ℚ))).sum) /
          (records.length : ℚ) := by
  have hk : records.length ≠ 0 := by simpa using h
  refine ⟨rfl, rfl, ?_, ?_⟩
  · simp only [stats, hk, if_false, Rat.mkRat_eq_div]
    push_cast
    ring
  · simp only [stats, hk, if_false, Rat.mkRat_eq_div]
    congr 1
    push_cast
    rw [List.map_map]
    rfl

/-- A second demo record, anomalous, health index 60. -/
def demoRecAnomalous : PersistedRecord :=
  { seq := 2, timestamp := 1, reading := scenarioA
    analysis := { demoAnalysis with healthIndex := 60, isAnomalous := true }
    mode := StorageMode.Primary }

/-- A first demo record, not anomalous, health index 80. -/
def demoRecNormal : PersistedRecord :=
  { seq := 1, timestamp := 0, reading := scenarioA
    analysis := demoAnalysis
    mode := StorageMode.Primary }

/-- Witness for C8 on a concrete two-record set with one anomaly. -/
theorem stats_spec_witness :
    (stats [demoRecNormal, demoRecAnomalous]).count = 2 ∧
      (stats [demoRecNormal, demoRecAnomalous]).anomalyPercentage =
        100 * ((([demoRecNormal, demoRecAnomalous].filter
          (fun pr => pr.analysis.isAnomalous)).length : ℚ)) / (2 : ℚ) := by
  have h := stats_spec [demoRecNormal, demoRecAnomalous] (by simp)
  exact ⟨h.1, h.2.2.1⟩

/-! ## Periodic producer with broker fallback -/

/-- Producer connectivity mode (§4.6 state machine, collapsed to the two
delivery-relevant states). -/
inductive ProducerMode
  | Broker
  | FallbackDirect
deriving DecidableEq, Repr

/-- Producer state: mode plus the count of consecutive publish failures. -/
structure ProducerState where
  mode : ProducerMode
  consecutiveFailures : ℕ
deriving DecidableEq, Repr

/-- How one tick's reading was delivered. -/
inductive Delivery
  | published
  | direct
deriving DecidableEq, Repr

/-- Modelled from the spec: one tick of the periodic producer
(`sensor_generator.py` is absent from the tree).  §4.6: in broker mode a
successful publish delivers the reading and resets the failure count; a failed
publish delivers the reading via the in-process Direct path (the reading is
not lost) and, after `n` consecutive failures, switches to `FallbackDirect`;
in `FallbackDirect` the reading goes via the Direct path, and once a publish
succeeds again the producer returns to broker mode (no manual reset). -/
def producerTick (n : ℕ) (st : ProducerState) (brokerOk : Bool) :
    ProducerState × Delivery :=
  match st.mode with
  | ProducerMode.Broker =>
      if brokerOk then ({ mode := ProducerMode.Broker, consecutiveFailures := 0 },
        Delivery.published)
      else if n ≤ st.consecutiveFailures + 1 then
        ({ mode := ProducerMode.FallbackDirect, consecutiveFailures := 0 }, Delivery.direct)
      else
        ({ mode := ProducerMode.Broker, consecutiveFailures := st.consecutiveFailures + 1 },
          Delivery.direct)
  | ProducerMode.FallbackDirect =>
      if brokerOk then ({ mode := ProducerMode.Broker, consecutiveFailures := 0 },
        Delivery.published)
      else ({ mode := ProducerMode.FallbackDirect, consecutiveFailures := 0 }, Delivery.direct)

/-- The producer state after `k` consecutive failed publish attempts. -/
def applyFailures (n : ℕ) (st : ProducerState) : ℕ → ProducerState
  | 0 => st
  | k + 1 => applyFailures n (producerTick n st false).1 k

/-- Modelled from the spec: the producer loop over a list of ticks.  Each tick
carries the broker-publish outcome, the generated reading and its timestamp;
both delivery paths run the pipeline, so every tick's reading is analysed and
persisted (dual-write with both stores up). -/
def producerRun (n : ℕ) (m : Models) :
    ProducerState → Stores → List (Bool × SensorReading × ℤ) → ProducerState × Stores
  | st, stores, [] => (st, stores)
  | st, stores, (ok, r, ts) :: rest =>
      producerRun n m (producerTick n st ok).1 (persist r (analyzeOne m r) ts stores true true).2 rest

/-- Once fallen back, continued failures keep the producer in fallback mode. -/
theorem applyFailures_fallback (n : ℕ) :
    ∀ k, applyFailures n ⟨ProducerMode.FallbackDirect, 0⟩ k =
      ⟨ProducerMode.FallbackDirect, 0⟩ := by
  intro k
  induction k with
  | zero => rfl
  | succ k ih => simpa [applyFailures, producerTick] using ih

/-- Failure counting below the threshold. -/
theorem applyFailures_broker (n : ℕ) :
    ∀ k j, j + k < n → applyFailures n ⟨ProducerMode.Broker, j⟩ k = ⟨ProducerMode.Broker, j + k⟩
  | 0, j, _ => rfl
  | k + 1, j, h => by
    have hlt : ¬ n ≤ j + 1 := by omega
    have ih := applyFailures_broker n k (j + 1) (by omega)
    simp only [applyFailures, producerTick, if_neg hlt]
    simpa [Nat.add_assoc, Nat.add_comm, Nat.add_left_comm] using ih

/-- Enough consecutive failures from any sub-threshold count reach fallback
mode. -/
theorem applyFailures_to_fallback (n : ℕ) :
    ∀ k j, j < n → n ≤ j + k →
      applyFailures n ⟨ProducerMode.Broker, j⟩ k = ⟨ProducerMode.FallbackDirect, 0⟩
  | 0, j, hj, hk => absurd hk (by omega)
  | k + 1, j, hj, hk => by
    by_cases h1 : n ≤ j + 1
    · have hstep : (producerTick n ⟨ProducerMode.Broker, j⟩ false).1 =
          ⟨ProducerMode.FallbackDirect, 0⟩ := by
        simp [producerTick, h1]
      show applyFailures n (producerTick n ⟨ProducerMode.Broker, j⟩ false).1 k = _
      rw [hstep]
      exact applyFailures_fallback n k
    · have hstep : (producerTick n ⟨ProducerMode.Broker, j⟩ false).1 =
          ⟨ProducerMode.Broker, j + 1⟩ := by
        simp [producerTick, h1]
      show applyFailures n (producerTick n ⟨ProducerMode.Broker, j⟩ false).1 k = _
      rw [hstep]
      exact applyFailures_to_fallback n k (j + 1) (by omega) (by omega)

/-- After exactly `n` consecutive failures the producer is in fallback mode. -/
theorem applyFailures_reaches_fallback (n : ℕ) (hn : 0 < n) :
    applyFailures n ⟨ProducerMode.Broker, 0⟩ n = ⟨ProducerMode.FallbackDirect, 0⟩ :=
  applyFailures_to_fallback n n 0 hn (by omega)

/-- C7: starting in broker mode with no failures, after `n` consecutive broker
publish failures the producer is in `FallbackDirect` mode; the next reading is
then delivered via the in-process Direct path (not published) and still
produces a persisted record in both stores; and as soon as a publish succeeds
again the producer is back in broker mode on the next tick, with no manual
reset. -/
theorem producer_fallback_and_recovery (n : ℕ) (hn : 0 < n) (m : Models)
    (r : SensorReading) (ts : ℤ) (stores : Stores) :
    applyFailures n ⟨ProducerMode.Broker, 0⟩ n = ⟨ProducerMode.FallbackDirect, 0⟩ ∧
      (producerTick n ⟨ProducerMode.FallbackDirect, 0⟩ false).2 = Delivery.direct ∧
      (producerRun n m ⟨ProducerMode.FallbackDirect, 0⟩ stores [(false, r, ts)]).2.primary =
        stores.primary ++
          [{ seq := stores.nextSeq, timestamp := ts, reading := r,
             analysis := analyzeOne m r, mode := StorageMode.Primary }] ∧
      (producerRun n m ⟨ProducerMode.FallbackDirect, 0⟩ stores [(false, r, ts)]).2.secondary =
        stores.secondary ++
          [{ seq := stores.nextSeq, timestamp := ts, reading := r,
             analysis := analyzeOne m r, mode := StorageMode.Primary }] ∧
      (producerTick n ⟨ProducerMode.FallbackDirect, 0⟩ true).1.mode = ProducerMode.Broker := by
  refine ⟨applyFailures_reaches_fallback n hn, rfl, ?_, ?_, rfl⟩ <;>
    simp [producerRun, persist]

/-- Witness for C7 at `n = 3` with a concrete model, reading and store. -/
theorem producer_fallback_and_recovery_witness :
    applyFailures 3 ⟨ProducerMode.Broker, 0⟩ 3 = ⟨ProducerMode.FallbackDirect, 0⟩ ∧
      (producerTick 3 ⟨ProducerMode.FallbackDirect, 0⟩ false).2 = Delivery.direct ∧
      (producerTick 3 ⟨ProducerMode.FallbackDirect, 0⟩ true).1.mode = ProducerMode.Broker := by
  have h := producer_fallback_and_recovery 3 (by decide) constModels scenarioA 0 Stores.empty
  exact ⟨h.1, h.2.1, h.2.2.2.2⟩

end HaritSamarth
